import Mathlib

/-!
# CSVFileLogger

A shallow embedding of `src/CSVFileLogger.cpp` / `src/CSVFileLogger.h`.

The logger is a thin layer over the global `SD` object of the Arduino SD
library.  The embedding keeps the logger's members and the part of the card
that the logger can observe in one explicit `System` value; every method is
a function from `System` to its return value and the new `System`.  Where a
method writes past the end of an object, the result is `none` or
`Outcome.undefined` from the point on at which the embedding cannot say what
the program does.

Not embedded: the text sent to `Serial` (it never influences the members,
the card or a return value; the one place where the debug path changes
control flow, the endless loop of `begin`, is embedded as `Outcome.halt`).
-/

namespace CSVFileLogger

/-! ## Constants and conversions of the C library -/

/-- The macro `EXIT_SUCCESS`.  `stdlib.h` is not part of the repository; the
value is the one of the C libraries of the Arduino tool chains (avr-libc,
newlib): `#define EXIT_SUCCESS 0`. -/
def EXIT_SUCCESS : Nat := 0

/-- The macro `EXIT_FAILURE`.  `stdlib.h` is not part of the repository; the
value is the one of the C libraries of the Arduino tool chains (avr-libc,
newlib): `#define EXIT_FAILURE 1`. -/
def EXIT_FAILURE : Nat := 1

/-- Conversion of an integer to `bool` at a `return` of a function declared
`bool`: zero becomes `false`, everything else `true`. -/
def boolOfInt (n : Nat) : Bool := n != 0

/-- Conversion of an `int` to `uint16_t`. -/
def toUInt16 (i : Int) : Nat := (i % 65536).toNat

/-- The value an `int16_t` object holds after the low 16 bits of `i` were
stored into it. -/
def toInt16 (i : Int) : Int := (i + 32768) % 65536 - 32768

/-! ## Text formatting (`sprintf`) -/

/-- Output of `sprintf` for the conversion `%0<width>d` at a non-negative
argument: the decimal digits, filled with zeros on the left up to `width`
characters (never truncated). -/
def fmtZeroPad (width n : Nat) : List Char :=
  List.replicate (width - (Nat.toDigits 10 n).length) '0' ++ Nat.toDigits 10 n

/-! ## Text scanning (`sscanf`) -/

/-- The characters `isspace` accepts in the C locale. -/
def isSpaceC (c : Char) : Bool :=
  c = ' ' || c = '\t' || c = '\n' || c = '\x0b' || c = '\x0c' || c = '\r'

/-- Directive `%*1[/]`: exactly one character out of the set `{/}` is
consumed and not stored; anything else (also the end of input) fails. -/
def scanSlash : List Char → Option (List Char)
  | [] => none
  | c :: rest => if c = '/' then some rest else none

/-- Ordinary characters of a format: each must be the next input character. -/
def scanLiteral : List Char → List Char → Option (List Char)
  | [], inp => some inp
  | _ :: _, [] => none
  | f :: fs, c :: rest => if c = f then scanLiteral fs rest else none

/-- Value of a run of decimal digits, most significant first. -/
def digitsValue (ds : List Char) : Nat :=
  ds.foldl (fun acc c => acc * 10 + (c.toNat - 48)) 0

/-- The digits part of `%d`: the longest run of leading decimal digits, which
must not be empty. -/
def scanDigits (inp : List Char) : Option Nat :=
  let ds := inp.takeWhile Char.isDigit
  if ds.isEmpty then none else some (digitsValue ds)

/-- Directive `%d`: white space is skipped, then an optional sign and at
least one decimal digit are converted; what follows the digits is left
unread. -/
def scanInt (inp : List Char) : Option Int :=
  match inp.dropWhile isSpaceC with
  | [] => none
  | c :: rest =>
    if c = '-' then (scanDigits rest).map (fun v => - Int.ofNat v)
    else if c = '+' then (scanDigits rest).map Int.ofNat
    else (scanDigits (c :: rest)).map Int.ofNat

/-- Embedding of `sscanf(name, "%*1[/]SET%d", &dirCntrOld)`: `some v` when the
call returns 1 (`v` being the converted number), `none` when it returns
anything else. -/
def sscanfSET (name : List Char) : Option Int := do
  let r1 ← scanSlash name
  let r2 ← scanLiteral "SET".toList r1
  scanInt r2

/-! ## The card as seen through the `SD` object -/

/-- What `openNextFile` hands out for a child of the root directory: the
result of `name()` and of `isDirectory()`. -/
structure DirEntry where
  name : List Char
  isDirectory : Bool
deriving DecidableEq, Repr

/-- Result of `SD.cardType()`. -/
inductive CardType where
  | CARD_NONE
  | CARD_MMC
  | CARD_SD
  | CARD_SDHC
  | CARD_UNKNOWN
deriving DecidableEq, Repr

/-- The storage driver is an external collaborator.  Its answers are fields
of the state, so that every theorem ranges over all of them: whether
`SD.begin` mounts the card, whether the root directory can be opened, whether
`mkdir` and `open(.., FILE_WRITE)` work, whether `FILE_WRITE` empties a file
that exists already, the card type, the children of the root directory in
listing order, and every file with its path and content. -/
structure SDCard where
  beginOk : Bool
  rootOk : Bool
  mkdirOk : Bool
  openOk : Bool
  writeTruncates : Bool
  cardType : CardType
  root : List DirEntry
  files : List (List Char × List Char)
deriving DecidableEq, Repr

/-- `SD.exists(path)`. -/
def SD_exists (sd : SDCard) (path : List Char) : Bool :=
  sd.root.any (fun e => e.name = path) || sd.files.any (fun f => f.1 = path)

/-- `SD.mkdir(path)`: when the driver can create the directory, it becomes a
new child of the root directory, listed under its path. -/
def SD_mkdir (sd : SDCard) (path : List Char) : SDCard :=
  if sd.mkdirOk && !SD_exists sd path then
    { sd with root := sd.root ++ [⟨path, true⟩] }
  else sd

/-- `SD.open(path, FILE_WRITE)`: the handle (`none` for a handle that tests
false) and the card afterwards.  The file is created when it is absent. -/
def SD_open (sd : SDCard) (path : List Char) : Option (List Char) × SDCard :=
  if !sd.openOk then (none, sd)
  else if sd.files.any (fun f => f.1 = path) then
    (some path,
      if sd.writeTruncates then
        { sd with files := sd.files.map (fun f => if f.1 = path then (f.1, []) else f) }
      else sd)
  else (some path, { sd with files := sd.files ++ [(path, [])] })

/-- `handle.print(text)`: the text is appended to the file behind the handle. -/
def File_print (handle : Option (List Char)) (text : List Char) (sd : SDCard) : SDCard :=
  match handle with
  | none => sd
  | some path =>
    { sd with files := sd.files.map (fun f => if f.1 = path then (f.1, f.2 ++ text) else f) }

/-- Content of the file stored under `path`, if there is one. -/
def fileContent (sd : SDCard) (path : List Char) : Option (List Char) :=
  (sd.files.find? (fun f => f.1 = path)).map (fun f => f.2)

/-! ## The logger -/

/-- The members of `class CSVFileLogger`.  `_useTimeStamp` and `_millisStart`
are used by `begin` and `startLogging` but declared nowhere in the header;
they are kept as members.  `_fileHandle` is `none` when the handle tests
false and the path of the open file otherwise.  `_fileNameIterator` is a
`uint16_t`. -/
structure Logger where
  _useSerialDebug : Bool
  _isTargetWindows : Bool
  _useTimeStamp : Bool
  _millisStart : Nat
  _targetDirName : List Char
  _isNewLine : Bool
  _fileNameIterator : Nat
  _fileHandle : Option (List Char)
deriving DecidableEq, Repr

/-- What the compiler placed in the two bytes that follow `dirCntrOld` in
memory.  `sscanf` with `%d` stores an `int`, four bytes, through
`&dirCntrOld`, which points to an `int16_t` of two bytes; on the
little-endian targets the low half of the number becomes `dirCntrOld` and the
high half lands in the two bytes behind it.  `dirCntr`: the variable
`dirCntr` lies there, where a GCC build without optimisation places it.
`unused`: nothing that is read later lies there.  `other`: something else lies there, and what the program
does after the store is not followed. -/
inductive Neighbour where
  | dirCntr
  | unused
  | other
deriving DecidableEq, Repr

/-- Logger, card, the reading of the `millis()` clock, and the layout the
compiler chose for the locals of `_getTargetLoggingDirectoryNmbr`. -/
structure System where
  logger : Logger
  SD : SDCard
  millis : Nat
  behind : Neighbour
deriving DecidableEq, Repr

/-- How a call of `begin` ends: it returns a `bool`, it never returns
(`while(1);`), or it ran into a store whose effect is not followed
(`undefined`). -/
inductive Outcome where
  | ret (b : Bool) (w : System)
  | halt (w : System)
  | undefined (w : System)
deriving DecidableEq, Repr

/-- Number formatting of the platform, which the repository only calls:
`Print::print(float)` and `dtostrf(value, width, precision, buffer)`, over
the platform's type `F` of `float` values. -/
structure Platform (F : Type) where
  printFloat : F → List Char
  dtostrf : F → Nat → Nat → List Char

/-- The value of `dirCntr` after `sscanf` stored the `int` `v` through
`&dirCntrOld`: the high half of `v` when `dirCntr` lies behind `dirCntrOld`,
the old value when nothing read later lies there, and `none` when the store
hits something the embedding does not follow. -/
def dirCntrAfterStore (behind : Neighbour) (v dirCntr : Int) : Option Int :=
  match behind with
  | .dirCntr => some (v / 65536)
  | .unused => some dirCntr
  | .other => none

/-- The loop of `_getTargetLoggingDirectoryNmbr` over the children of the
root directory; the argument `dirCntr` is the value of the `int16_t` variable
of that name at the start of a round.  `dirCntrOld` is written by every
successful `sscanf` before it is read, so it is local to one round.  A
successful `sscanf` stores the four bytes of the converted `int`: the low
half is the new `dirCntrOld`, the high half goes where `behind` says.  The
result is `none` when the number has no representation as `int` (the C
standard leaves the conversion undefined) or when the store hits memory that
is not followed. -/
def scanRoot (behind : Neighbour) : List DirEntry → Int → Option Int
  | [], dirCntr => some dirCntr
  | entry :: rest, dirCntr =>
    if !entry.isDirectory then scanRoot behind rest dirCntr
    else
      match sscanfSET entry.name with
      | none => scanRoot behind rest dirCntr
      | some v =>
        if v < -2147483648 ∨ 2147483647 < v then none
        else
          let dirCntrOld := toInt16 v
          match dirCntrAfterStore behind v dirCntr with
          | none => none
          | some dirCntr1 =>
            if dirCntrOld > dirCntr1 then scanRoot behind rest dirCntrOld
            else scanRoot behind rest dirCntr1

/-- Embedding of `CSVFileLogger::_getTargetLoggingDirectoryNmbr`; `none` when
the loop over the root directory ends undefined. -/
def _getTargetLoggingDirectoryNmbr (w : System) : Option Nat :=
  if !w.SD.rootOk then some (toUInt16 0)
  else (scanRoot w.behind w.SD.root (-1)).map (fun dirCntr => toUInt16 (dirCntr + 1))

/-- Embedding of `CSVFileLogger::begin`. -/
def begin (w : System) (_pinChipSelect : Nat) : Outcome :=
  if !w.SD.beginOk then .ret (boolOfInt EXIT_FAILURE) w
  else
    match _getTargetLoggingDirectoryNmbr w with
    | none => .undefined w
    | some targetDirectoryNmbr =>
      let dirName := "/SET".toList ++ fmtZeroPad 4 targetDirectoryNmbr
      let w1 : System :=
        { w with logger := { w.logger with _targetDirName := dirName },
                 SD := SD_mkdir w.SD dirName }
      if !SD_exists w1.SD dirName then .ret (boolOfInt EXIT_FAILURE) w1
      else if !w1.logger._useSerialDebug then .ret (boolOfInt EXIT_SUCCESS) w1
      else if w1.SD.cardType = CardType.CARD_NONE then .halt w1
      else .ret (boolOfInt EXIT_SUCCESS) w1

/-- The file name `startLogging` builds with
`sprintf(fileName, "%s/%07d.CSV", _targetDirName, _fileNameIterator)`. -/
def logFileName (l : Logger) : List Char :=
  l._targetDirName ++ "/".toList ++ fmtZeroPad 7 l._fileNameIterator ++ ".CSV".toList

/-- Embedding of `CSVFileLogger::startLogging`. -/
def startLogging (w : System) : Bool × System :=
  match w.logger._fileHandle with
  | some _ => (boolOfInt EXIT_SUCCESS, w)
  | none =>
    let opened := SD_open w.SD (logFileName w.logger)
    let w1 : System :=
      { w with logger := { w.logger with _fileHandle := opened.1 }, SD := opened.2 }
    match opened.1 with
    | none => (boolOfInt EXIT_FAILURE, w1)
    | some _ =>
      let w2 : System :=
        if w1.logger._useTimeStamp then
          { w1 with logger := { w1.logger with _millisStart := w1.millis } }
        else w1
      (boolOfInt EXIT_SUCCESS, { w2 with logger := { w2.logger with _isNewLine := true } })

/-- Embedding of `CSVFileLogger::endLogging`. -/
def endLogging (w : System) : Bool × System :=
  match w.logger._fileHandle with
  | none => (boolOfInt EXIT_FAILURE, w)
  | some _ =>
    (boolOfInt EXIT_SUCCESS,
      { w with logger := { w.logger with
          _fileHandle := none,
          _fileNameIterator := (w.logger._fileNameIterator + 1) % 65536 } })

/-- Embedding of `CSVFileLogger::isLoggingEnabled`. -/
def isLoggingEnabled (w : System) : Bool × System :=
  match w.logger._fileHandle with
  | none => (false, w)
  | some _ => (true, w)

/-- The statement `if (!_isNewLine) { _fileHandle.print(", "); }`. -/
def printSeparator (w : System) : System :=
  if !w.logger._isNewLine then
    { w with SD := File_print w.logger._fileHandle ", ".toList w.SD }
  else w

/-- The statement `_fileHandle.print(text)`. -/
def printText (w : System) (text : List Char) : System :=
  { w with SD := File_print w.logger._fileHandle text w.SD }

/-- Embedding of `CSVFileLogger::addLineBreak`. -/
def addLineBreak (w : System) : Bool × System :=
  match w.logger._fileHandle with
  | none => (boolOfInt EXIT_FAILURE, w)
  | some _ =>
    let w1 := if w.logger._isTargetWindows then printText w "\r".toList else w
    let w2 := printText w1 "\n".toList
    (boolOfInt EXIT_SUCCESS, { w2 with logger := { w2.logger with _isNewLine := true } })

/-- Embedding of `CSVFileLogger::addValue(float)`. -/
def addValue {F : Type} (P : Platform F) (w : System) (value_ : F) : Bool × System :=
  match w.logger._fileHandle with
  | none => (boolOfInt EXIT_FAILURE, w)
  | some _ => (boolOfInt EXIT_SUCCESS, printText (printSeparator w) (P.printFloat value_))

/-- Embedding of `CSVFileLogger::addValue(float, uint8_t)`.  `dtostrf` writes
its text and the terminator into `char valueChar[20]`: a text of 20 or more
characters runs over the end of the buffer, and the result is `none`, the
behaviour being undefined from there on. -/
def addValueDec {F : Type} (P : Platform F) (w : System) (value_ : F)
    (decimalPlaces_ : Nat) : Option (Bool × System) :=
  match w.logger._fileHandle with
  | none => some (boolOfInt EXIT_FAILURE, w)
  | some _ =>
    let d := decimalPlaces_ % 256
    let w1 := printSeparator w
    let valueChar := P.dtostrf value_ (4 + d) d
    if 20 ≤ valueChar.length then none
    else
      let w2 := printText w1 valueChar
      some (boolOfInt EXIT_SUCCESS,
        { w2 with logger := { w2.logger with _isNewLine := false } })

/-- Embedding of `CSVFileLogger::addText(const char*)`; the argument is the
text up to its terminator. -/
def addTextC (w : System) (text_ : List Char) : Bool × System :=
  match w.logger._fileHandle with
  | none => (boolOfInt EXIT_FAILURE, w)
  | some _ => (boolOfInt EXIT_SUCCESS, printText (printSeparator w) text_)

/-- The loop `for (run = 0; run < len_; run++) _fileHandle.print(text_[run])`
from position `run` on, with `todo` rounds left. -/
def printChars (text_ : Nat → Char) : Nat → Nat → System → System
  | 0, _, w => w
  | todo + 1, run, w => printChars text_ todo (run + 1) (printText w [text_ run])

/-- Embedding of `CSVFileLogger::addText(char*, uint16_t)`; `text_` is the
memory behind the pointer, read by index. -/
def addTextBuf (w : System) (text_ : Nat → Char) (len_ : Nat) : Bool × System :=
  match w.logger._fileHandle with
  | none => (boolOfInt EXIT_FAILURE, w)
  | some _ => (boolOfInt EXIT_SUCCESS, printChars text_ (len_ % 65536) 0 (printSeparator w))

/-- Embedding of `CSVFileLogger::addText(String)`. -/
def addTextS (w : System) (text_ : List Char) : Bool × System :=
  match w.logger._fileHandle with
  | none => (boolOfInt EXIT_FAILURE, w)
  | some _ => (boolOfInt EXIT_SUCCESS, printText (printSeparator w) text_)

/-! ## Runs and samples used by the statements -/

/-- The system a call of `begin` leaves behind. -/
def Outcome.system : Outcome → System
  | .ret _ w => w
  | .halt w => w
  | .undefined w => w

/-- An append operation of the public interface with its arguments. -/
inductive AppendOp (F : Type) where
  | lineBreak
  | value (value_ : F)
  | valueDec (value_ : F) (decimalPlaces_ : Nat)
  | textC (text_ : List Char)
  | textBuf (text_ : Nat → Char) (len_ : Nat)
  | textS (text_ : List Char)

/-- One append operation, carried out by the method it names; `none` when
it runs over the buffer of `addValue(float, uint8_t)`. -/
def runAppend {F : Type} (P : Platform F) (w : System) : AppendOp F → Option (Bool × System)
  | .lineBreak => some (addLineBreak w)
  | .value v => some (addValue P w v)
  | .valueDec v d => addValueDec P w v d
  | .textC t => some (addTextC w t)
  | .textBuf t n => some (addTextBuf w t n)
  | .textS t => some (addTextS w t)

/-- A sequence of append operations, one after the other; `none` when one of
them runs over the buffer. -/
def runAppends {F : Type} (P : Platform F) : System → List (AppendOp F) → Option System
  | w, [] => some w
  | w, op :: ops =>
    match runAppend P w op with
    | none => none
    | some r => runAppends P r.2 ops

/-- Whether the text an append operation formats into `char valueChar[20]`
fits with its terminator; only `addValue(float, uint8_t)` uses the buffer. -/
def fitsValueChar {F : Type} (P : Platform F) : AppendOp F → Bool
  | .valueDec v d => decide ((P.dtostrf v (4 + d % 256) (d % 256)).length < 20)
  | _ => true

/-- Frame of a write: `w2` differs from `w1` in nothing but the content of
the file stored under `path`. -/
def OnlyFileChanged (path : List Char) (w1 w2 : System) : Prop :=
  w2 = { w1 with SD := { w1.SD with files := w2.SD.files } } ∧
  ∀ q, q ≠ path → fileContent w2.SD q = fileContent w1.SD q

/-- A sample platform for concrete runs: a value is a non-negative number of
thousandths, rendered with `prec` decimals (rounded half up). -/
def sampleFixed (milli prec : Nat) : List Char :=
  let scaled := (milli * 10 ^ prec + 500) / 1000
  Nat.toDigits 10 (scaled / 10 ^ prec) ++
    (if prec = 0 then [] else '.' :: fmtZeroPad prec (scaled % 10 ^ prec))

/-- The sample platform: `print` shows two decimals, `dtostrf` fills with
blanks on the left up to the width. -/
def samplePlatform : Platform Nat where
  printFloat := fun v => sampleFixed v 2
  dtostrf := fun v width prec =>
    List.replicate (width - (sampleFixed v prec).length) ' ' ++ sampleFixed v prec

/-- A card on which every driver call works, with the given children of the
root directory and no files, a logger as constructed with
`CSVFileLogger(false)`, and a build without optimisation, in which `dirCntr`
lies behind `dirCntrOld`. -/
def cardWith (root : List DirEntry) : System :=
  { logger := ⟨false, false, false, 0, [], true, 1, none⟩,
    SD := ⟨true, true, true, true, false, CardType.CARD_SD, root, []⟩,
    millis := 0,
    behind := Neighbour.dirCntr }

/-- The system after `begin` on an empty card: the directory `/SET0000`
exists and no file is open. -/
def readyCard : System := (begin (cardWith []) 5).system

/-- The system `readyCard` with the file-name iterator of the logger at `c`,
as it is after `c - 1` completed sessions. -/
def cardAtCounter (c : Nat) : System :=
  { readyCard with logger := { readyCard.logger with _fileNameIterator := c } }

/-! ## Lemmas -/

theorem toDigitsCore_acc (fuel n : Nat) (ds : List Char) :
    Nat.toDigitsCore 10 fuel n ds = Nat.toDigitsCore 10 fuel n [] ++ ds := by
  induction fuel generalizing n ds with
  | zero => simp [Nat.toDigitsCore]
  | succ fuel ih =>
    simp only [Nat.toDigitsCore]
    split
    · simp
    · rw [ih (n / 10) ((n % 10).digitChar :: ds), ih (n / 10) [(n % 10).digitChar]]
      simp

theorem toDigitsCore_fuel (n : Nat) : ∀ (f g : Nat), n < f → n < g →
    Nat.toDigitsCore 10 f n [] = Nat.toDigitsCore 10 g n [] := by
  induction n using Nat.strong_induction_on with
  | _ n ih =>
    intro f g hf hg
    cases f with
    | zero => omega
    | succ f =>
      cases g with
      | zero => omega
      | succ g =>
        simp only [Nat.toDigitsCore]
        split
        · rfl
        · rename_i hne
          have hlt : n / 10 < n := Nat.div_lt_self (by omega) (by omega)
          rw [toDigitsCore_acc f, toDigitsCore_acc g,
            ih (n / 10) hlt f g (by omega) (by omega)]

theorem toDigits_small {n : Nat} (h : n < 10) :
    Nat.toDigits 10 n = [n.digitChar] := by
  have h0 : n / 10 = 0 := Nat.div_eq_of_lt h
  have h1 : n % 10 = n := Nat.mod_eq_of_lt h
  simp [Nat.toDigits, Nat.toDigitsCore, h0, h1]

theorem toDigits_step {n : Nat} (h : 10 ≤ n) :
    Nat.toDigits 10 n = Nat.toDigits 10 (n / 10) ++ [(n % 10).digitChar] := by
  have hne : n / 10 ≠ 0 := by omega
  have hlt : n / 10 < n := Nat.div_lt_self (by omega) (by omega)
  have hstep : Nat.toDigitsCore 10 (n + 1) n []
      = Nat.toDigitsCore 10 n (n / 10) [(n % 10).digitChar] := by
    rw [Nat.toDigitsCore]
    simp [hne]
  unfold Nat.toDigits
  rw [hstep, toDigitsCore_acc, toDigitsCore_fuel (n / 10) n (n / 10 + 1) hlt (by omega)]

theorem digitChar_value {d : Nat} (h : d < 10) : d.digitChar.toNat - 48 = d := by
  interval_cases d <;> decide

theorem digitsValue_snoc (ds : List Char) (c : Char) :
    digitsValue (ds ++ [c]) = digitsValue ds * 10 + (c.toNat - 48) := by
  simp [digitsValue, List.foldl_append]

theorem digitsValue_toDigits (n : Nat) : digitsValue (Nat.toDigits 10 n) = n := by
  induction n using Nat.strong_induction_on with
  | _ n ih =>
    by_cases h : n < 10
    · rw [toDigits_small h]
      simpa [digitsValue] using digitChar_value h
    · have hlt : n / 10 < n := Nat.div_lt_self (by omega) (by omega)
      rw [toDigits_step (by omega), digitsValue_snoc, ih _ hlt,
        digitChar_value (Nat.mod_lt n (by omega))]
      omega

theorem digitsValue_zeros (k : Nat) (ds : List Char) :
    digitsValue (List.replicate k '0' ++ ds) = digitsValue ds := by
  induction k with
  | zero => simp
  | succ k ih =>
    rw [List.replicate_succ, List.cons_append]
    have : digitsValue ('0' :: (List.replicate k '0' ++ ds))
        = digitsValue (List.replicate k '0' ++ ds) := by
      simp [digitsValue]
    rw [this, ih]

theorem digitsValue_fmtZeroPad (width n : Nat) : digitsValue (fmtZeroPad width n) = n := by
  rw [fmtZeroPad, digitsValue_zeros, digitsValue_toDigits]

theorem fmtZeroPad_injective (width : Nat) {n m : Nat}
    (h : fmtZeroPad width n = fmtZeroPad width m) : n = m := by
  have := congrArg digitsValue h
  rwa [digitsValue_fmtZeroPad, digitsValue_fmtZeroPad] at this

theorem find_after_print (p q text : List Char) (hqp : q ≠ p)
    (fs : List (List Char × List Char)) :
    (fs.map (fun f => if f.1 = p then (f.1, f.2 ++ text) else f)).find? (fun f => f.1 = q)
      = fs.find? (fun f => f.1 = q) := by
  induction fs with
  | nil => rfl
  | cons f fs ih =>
    rw [List.map_cons, List.find?_cons, List.find?_cons, ih]
    by_cases hf : f.1 = p
    · have hfq : ¬ f.1 = q := fun h => hqp (h ▸ hf)
      have hpq : ¬ p = q := fun h => hqp h.symm
      simp [hf, hfq, hpq]
    · simp [hf]

theorem fileContent_File_print_other (sd : SDCard) (p q text : List Char) (hqp : q ≠ p) :
    fileContent (File_print (some p) text sd) q = fileContent sd q := by
  simp only [File_print, fileContent, find_after_print p q text hqp]

theorem printText_frame (w : System) (p text : List Char)
    (hopen : w.logger._fileHandle = some p) : OnlyFileChanged p w (printText w text) := by
  refine ⟨?_, fun q hq => ?_⟩
  · simp [printText, File_print, hopen]
  · simp only [printText, hopen]
    exact fileContent_File_print_other w.SD p q text hq

theorem OnlyFileChanged.refl (p : List Char) (w : System) : OnlyFileChanged p w w :=
  ⟨rfl, fun _ _ => rfl⟩

theorem OnlyFileChanged.trans {p : List Char} {w1 w2 w3 : System}
    (h12 : OnlyFileChanged p w1 w2) (h23 : OnlyFileChanged p w2 w3) :
    OnlyFileChanged p w1 w3 := by
  refine ⟨?_, fun q hq => (h23.2 q hq).trans (h12.2 q hq)⟩
  obtain ⟨l1, sd1, m1, b1⟩ := w1
  obtain ⟨l2, sd2, m2, b2⟩ := w2
  obtain ⟨l3, sd3, m3, b3⟩ := w3
  have h2 := h12.1
  have h3 := h23.1
  simp only [System.mk.injEq] at h2 h3 ⊢
  obtain ⟨hl2, hs2, hm2, hb2⟩ := h2
  obtain ⟨hl3, hs3, hm3, hb3⟩ := h3
  refine ⟨hl3.trans hl2, ?_, hm3.trans hm2, hb3.trans hb2⟩
  rw [hs3, hs2]

theorem OnlyFileChanged.logger {p : List Char} {w1 w2 : System}
    (h : OnlyFileChanged p w1 w2) : w2.logger = w1.logger := by
  rw [h.1]

theorem printSeparator_frame (w : System) (p : List Char)
    (hopen : w.logger._fileHandle = some p) : OnlyFileChanged p w (printSeparator w) := by
  unfold printSeparator
  split
  · exact printText_frame w p _ hopen
  · exact OnlyFileChanged.refl p w

theorem printChars_frame (text_ : Nat → Char) (p : List Char) : ∀ (todo run : Nat) (w : System),
    w.logger._fileHandle = some p → OnlyFileChanged p w (printChars text_ todo run w) := by
  intro todo
  induction todo with
  | zero => intro run w _; exact OnlyFileChanged.refl p w
  | succ todo ih =>
    intro run w hopen
    have h1 := printText_frame w p [text_ run] hopen
    have hopen1 : (printText w [text_ run]).logger._fileHandle = some p := by
      rw [h1.logger]; exact hopen
    exact h1.trans (ih (run + 1) _ hopen1)

theorem separator_then_text_frame (w : System) (p text : List Char)
    (hopen : w.logger._fileHandle = some p) :
    OnlyFileChanged p w (printText (printSeparator w) text) := by
  have h1 := printSeparator_frame w p hopen
  exact h1.trans (printText_frame _ p text (by rw [h1.logger]; exact hopen))

theorem SD_open_handle (sd : SDCard) (path : List Char) :
    (SD_open sd path).1 = if sd.openOk then some path else none := by
  unfold SD_open
  cases sd.openOk
  · simp
  · simp only [Bool.not_true, Bool.false_eq_true, if_false, if_true]
    split <;> rfl

theorem startLogging_closed_fail (w : System) (hclosed : w.logger._fileHandle = none)
    (hopen : w.SD.openOk = false) : startLogging w = (boolOfInt EXIT_FAILURE, w) := by
  have hh := SD_open_handle w.SD (logFileName w.logger)
  have hs : (SD_open w.SD (logFileName w.logger)).2 = w.SD := by
    simp [SD_open, hopen]
  rw [hopen] at hh
  simp only [Bool.false_eq_true, if_false] at hh
  unfold startLogging
  simp only [hclosed, hh, hs]
  obtain ⟨l, sd, m, b⟩ := w
  simp only at hclosed
  rw [← hclosed]

theorem startLogging_closed_ok (w : System) (hclosed : w.logger._fileHandle = none)
    (hopen : w.SD.openOk = true) :
    startLogging w = (boolOfInt EXIT_SUCCESS,
      { logger := { w.logger with
          _fileHandle := some (logFileName w.logger),
          _millisStart := if w.logger._useTimeStamp then w.millis else w.logger._millisStart,
          _isNewLine := true },
        SD := (SD_open w.SD (logFileName w.logger)).2,
        millis := w.millis,
        behind := w.behind }) := by
  have hh := SD_open_handle w.SD (logFileName w.logger)
  rw [hopen] at hh
  simp only [if_true] at hh
  unfold startLogging
  simp only [hclosed, hh]
  cases w.logger._useTimeStamp <;> simp

theorem logFileName_ne {l1 l2 : Logger} (hdir : l1._targetDirName = l2._targetDirName)
    (hne : l1._fileNameIterator ≠ l2._fileNameIterator) : logFileName l1 ≠ logFileName l2 := by
  intro h
  unfold logFileName at h
  rw [hdir] at h
  have h1 := List.append_cancel_right h
  rw [List.append_assoc, List.append_assoc] at h1
  have h2 := List.append_cancel_left (List.append_cancel_left h1)
  exact hne (fmtZeroPad_injective 7 h2)

theorem addValueDec_open {F : Type} (P : Platform F) (w : System) (p : List Char)
    (hopen : w.logger._fileHandle = some p) (value_ : F) (decimalPlaces_ : Nat) :
    addValueDec P w value_ decimalPlaces_
      = if 20 ≤ (P.dtostrf value_ (4 + decimalPlaces_ % 256) (decimalPlaces_ % 256)).length
        then none
        else some (boolOfInt EXIT_SUCCESS,
          { printText (printSeparator w)
              (P.dtostrf value_ (4 + decimalPlaces_ % 256) (decimalPlaces_ % 256)) with
            logger := { w.logger with _isNewLine := false } }) := by
  have hl := (separator_then_text_frame w p
    (P.dtostrf value_ (4 + decimalPlaces_ % 256) (decimalPlaces_ % 256)) hopen).logger
  unfold addValueDec
  rw [hopen]
  simp only
  split
  · rfl
  · rw [hl]

theorem runAppend_logger {F : Type} (P : Platform F) (w : System) (op : AppendOp F)
    (hfit : fitsValueChar P op = true) :
    ∃ r, runAppend P w op = some r ∧
      r.2.logger._fileHandle = w.logger._fileHandle ∧
      r.2.logger._fileNameIterator = w.logger._fileNameIterator ∧
      r.2.logger._targetDirName = w.logger._targetDirName := by
  cases hh : w.logger._fileHandle with
  | none =>
    cases op <;>
      simp [runAppend, addLineBreak, addValue, addValueDec, addTextC, addTextBuf, addTextS, hh]
  | some p =>
    have key : ∀ u : System, u.logger = w.logger →
        u.logger._fileHandle = some p ∧
        u.logger._fileNameIterator = w.logger._fileNameIterator ∧
        u.logger._targetDirName = w.logger._targetDirName :=
      fun u hu => by rw [hu]; exact ⟨hh, rfl, rfl⟩
    cases op with
    | lineBreak =>
      refine ⟨addLineBreak w, rfl, ?_⟩
      simp only [addLineBreak, hh]
      cases hwin : w.logger._isTargetWindows
      · exact key _ (printText_frame w p _ hh).logger
      · have h1 := printText_frame w p "\r".toList hh
        have h2 := printText_frame (printText w "\r".toList) p "\n".toList
          (by rw [h1.logger]; exact hh)
        exact key _ (h1.trans h2).logger
    | value v =>
      refine ⟨addValue P w v, rfl, ?_⟩
      simp only [addValue, hh]
      exact key _ (separator_then_text_frame w p _ hh).logger
    | valueDec v d =>
      have hlen : ¬ 20 ≤ (P.dtostrf v (4 + d % 256) (d % 256)).length := by
        simp only [fitsValueChar, decide_eq_true_eq] at hfit
        omega
      refine ⟨_, by rw [runAppend, addValueDec_open P w p hh, if_neg hlen], ?_⟩
      exact ⟨hh, rfl, rfl⟩
    | textC t =>
      refine ⟨addTextC w t, rfl, ?_⟩
      simp only [addTextC, hh]
      exact key _ (separator_then_text_frame w p _ hh).logger
    | textBuf t n =>
      refine ⟨addTextBuf w t n, rfl, ?_⟩
      simp only [addTextBuf, hh]
      have h1 := printSeparator_frame w p hh
      exact key _ (h1.trans (printChars_frame t p _ 0 _ (by rw [h1.logger]; exact hh))).logger
    | textS t =>
      refine ⟨addTextS w t, rfl, ?_⟩
      simp only [addTextS, hh]
      exact key _ (separator_then_text_frame w p _ hh).logger

theorem runAppends_logger {F : Type} (P : Platform F) (ops : List (AppendOp F)) :
    ∀ w : System, ops.all (fitsValueChar P) = true →
      ∃ u, runAppends P w ops = some u ∧
        u.logger._fileHandle = w.logger._fileHandle ∧
        u.logger._fileNameIterator = w.logger._fileNameIterator ∧
        u.logger._targetDirName = w.logger._targetDirName := by
  induction ops with
  | nil => intro w _; exact ⟨w, rfl, rfl, rfl, rfl⟩
  | cons op ops ih =>
    intro w hfit
    rw [List.all_cons, Bool.and_eq_true] at hfit
    obtain ⟨r, hr, a1, a2, a3⟩ := runAppend_logger P w op hfit.1
    obtain ⟨u, hu, b1, b2, b3⟩ := ih r.2 hfit.2
    refine ⟨u, ?_, b1.trans a1, b2.trans a2, b3.trans a3⟩
    rw [runAppends, hr]
    exact hu

/-! ## The claims -/

/-- C1, the code at the failing inputs.  In a build in which `dirCntr` lies
behind `dirCntrOld`, the four-byte store of `sscanf` overwrites `dirCntr` at
every match, so the function returns the number of the last matching
directory plus one: 4 for the directories `/SET0007`, `/SET0003` in this
order, where the maximum plus one is 8 (one matching directory alone yields
its number plus one).  A directory `/SET12AB`, whose name is not `SET`
followed by a decimal number, is counted as number 12. -/
theorem C1_directory_number_not_maximum :
    _getTargetLoggingDirectoryNmbr
        (cardWith [⟨"/SET0007".toList, true⟩, ⟨"/SET0003".toList, true⟩]) = some 4 ∧
    _getTargetLoggingDirectoryNmbr (cardWith [⟨"/SET0007".toList, true⟩]) = some 8 ∧
    _getTargetLoggingDirectoryNmbr (cardWith [⟨"/SET12AB".toList, true⟩]) = some 13 := by
  decide

/-- C2, the code at the failing input: after `startLogging` two calls of
`addText` leave `ab` in the file, with no separator, and the new-line flag
still true; two calls of `addValue(float)` likewise write the two numbers
back to back; only `addValue(float, uint8_t)` separates its second field. -/
theorem C2_separator_missing :
    (addTextC (addTextC (startLogging readyCard).2 "a".toList).2
        "b".toList).2.SD.files
      = [("/SET0000/0000001.CSV".toList, "ab".toList)] ∧
    (addTextC (addTextC (startLogging readyCard).2 "a".toList).2
        "b".toList).2.logger._isNewLine = true ∧
    (addValue samplePlatform
        (addValue samplePlatform (startLogging readyCard).2 1500).2
        2500).2.SD.files
      = [("/SET0000/0000001.CSV".toList, "1.502.50".toList)] ∧
    ((addValueDec samplePlatform (startLogging readyCard).2 1500 2).bind
        (fun r => addValueDec samplePlatform r.2 2500 2)).map (fun r => r.2.SD.files)
      = some [("/SET0000/0000001.CSV".toList, "  1.50,   2.50".toList)] := by
  decide

/-- C3, the code against its doc comments: `addLineBreak` and `addValue(float)`
return `true` exactly when no file is open, that is when they fail; `begin`
returns `true` when the card cannot be mounted or the directory cannot be
created, and `false` when the directory `/SET0000` was created. -/
theorem C3_returned_bool_is_inverted {F : Type} (P : Platform F) (w : System) (value_ : F) :
    (addLineBreak w).1 = w.logger._fileHandle.isNone ∧
    (addValue P w value_).1 = w.logger._fileHandle.isNone ∧
    begin { cardWith [] with SD := { (cardWith []).SD with beginOk := false } } 5
      = Outcome.ret true { cardWith [] with SD := { (cardWith []).SD with beginOk := false } } ∧
    begin { cardWith [] with SD := { (cardWith []).SD with mkdirOk := false } } 5
      = Outcome.ret true (begin { cardWith [] with SD := { (cardWith []).SD with mkdirOk := false } } 5).system ∧
    begin (cardWith []) 5 = Outcome.ret false (begin (cardWith []) 5).system ∧
    SD_exists (begin (cardWith []) 5).system.SD "/SET0000".toList = true := by
  refine ⟨?_, ?_, by decide, by decide, by decide, by decide⟩
  · unfold addLineBreak
    cases w.logger._fileHandle <;> rfl
  · unfold addValue
    cases w.logger._fileHandle <;> rfl

/-- C4: with no file open, `endLogging`, `addLineBreak`, both `addValue` overloads
and the three `addText` overloads return the failure code and leave the whole
system, logger and card, as it was. -/
theorem C4_closed_operations_fail {F : Type} (P : Platform F) (w : System)
    (hclosed : w.logger._fileHandle = none)
    (value_ : F) (decimalPlaces_ : Nat) (text_ : List Char) (buf_ : Nat → Char) (len_ : Nat) :
    endLogging w = (boolOfInt EXIT_FAILURE, w) ∧
    addLineBreak w = (boolOfInt EXIT_FAILURE, w) ∧
    addValue P w value_ = (boolOfInt EXIT_FAILURE, w) ∧
    addValueDec P w value_ decimalPlaces_ = some (boolOfInt EXIT_FAILURE, w) ∧
    addTextC w text_ = (boolOfInt EXIT_FAILURE, w) ∧
    addTextBuf w buf_ len_ = (boolOfInt EXIT_FAILURE, w) ∧
    addTextS w text_ = (boolOfInt EXIT_FAILURE, w) := by
  simp [endLogging, addLineBreak, addValue, addValueDec, addTextC, addTextBuf, addTextS,
    hclosed]

/-- C4, concrete run on a logger that never started logging. -/
theorem C4_closed_operations_fail_witness :
    readyCard.logger._fileHandle = none ∧
    endLogging readyCard = (boolOfInt EXIT_FAILURE, readyCard) ∧
    addTextC readyCard "x".toList = (boolOfInt EXIT_FAILURE, readyCard) :=
  have h := C4_closed_operations_fail samplePlatform readyCard (by decide) 1500 2
    "x".toList (fun _ => 'x') 1
  ⟨by decide, h.1, h.2.2.2.2.1⟩

/-- C5: `isLoggingEnabled` returns whether the file handle is open and changes
nothing; after `startLogging` on a logger without an open file it returns
`true` when the underlying open succeeded and `false` when it failed, and
`startLogging` returns the matching code; after `endLogging` it returns
`false`, also when the `endLogging` follows that `startLogging`. -/
theorem C5_isLoggingEnabled (w : System) (hclosed : w.logger._fileHandle = none) :
    (∀ u : System, isLoggingEnabled u = (u.logger._fileHandle.isSome, u)) ∧
    (isLoggingEnabled (startLogging w).2).1 = w.SD.openOk ∧
    (startLogging w).1 = boolOfInt (if w.SD.openOk then EXIT_SUCCESS else EXIT_FAILURE) ∧
    (isLoggingEnabled (endLogging (startLogging w).2).2).1 = false ∧
    (∀ u : System, (isLoggingEnabled (endLogging u).2).1 = false) := by
  have hgen : ∀ u : System, isLoggingEnabled u = (u.logger._fileHandle.isSome, u) := by
    intro u
    unfold isLoggingEnabled
    cases u.logger._fileHandle <;> rfl
  have hend : ∀ u : System, (isLoggingEnabled (endLogging u).2).1 = false := by
    intro u
    rw [hgen]
    unfold endLogging
    cases hu : u.logger._fileHandle
    · simp [hu]
    · simp
  refine ⟨hgen, ?_, ?_, hend _, hend⟩
  · cases hopen : w.SD.openOk
    · rw [startLogging_closed_fail w hclosed hopen, hgen, hclosed]; rfl
    · rw [startLogging_closed_ok w hclosed hopen, hgen]; rfl
  · cases hopen : w.SD.openOk
    · rw [startLogging_closed_fail w hclosed hopen]; rfl
    · rw [startLogging_closed_ok w hclosed hopen]; rfl

/-- C5, concrete run: enabled after a successful start, disabled after the end. -/
theorem C5_isLoggingEnabled_witness :
    readyCard.logger._fileHandle = none ∧
    (isLoggingEnabled (startLogging readyCard).2).1 = true ∧
    (isLoggingEnabled (endLogging (startLogging readyCard).2).2).1 = false :=
  have h := C5_isLoggingEnabled readyCard (by decide)
  ⟨by decide, h.2.1, h.2.2.2.1⟩

/-- C6: with a file open, `startLogging` returns the success code and leaves the
whole system as it was (the handle, every file and its content, the file
counter and the new-line flag), so a second call changes nothing either. -/
theorem C6_startLogging_when_open (w : System) (path : List Char)
    (hopen : w.logger._fileHandle = some path) :
    startLogging w = (boolOfInt EXIT_SUCCESS, w) ∧
    startLogging (startLogging w).2 = startLogging w := by
  have h : startLogging w = (boolOfInt EXIT_SUCCESS, w) := by
    simp [startLogging, hopen]
  exact ⟨h, by rw [h]; exact h⟩

/-- C6, concrete run: a second `startLogging` right after a successful one. -/
theorem C6_startLogging_when_open_witness :
    (startLogging readyCard).2.logger._fileHandle = some "/SET0000/0000001.CSV".toList ∧
    startLogging (startLogging readyCard).2
      = (boolOfInt EXIT_SUCCESS, (startLogging readyCard).2) :=
  ⟨by decide,
    (C6_startLogging_when_open (startLogging readyCard).2 "/SET0000/0000001.CSV".toList
      (by decide)).1⟩

/-- C7 (amended): from a logger without an open file whose counter `c` is a
`uint16_t`, a successful `startLogging` leaves the counter at `c`; every
sequence of append operations none of which runs over the buffer of
`addValue(float, uint8_t)` runs to its end and leaves the counter at `c`; the
following `endLogging` succeeds and sets it to `c + 1`, or to 0 when `c` is
65535; the new counter differs from `c`, and so does the file name of the
next session. -/
theorem C7_file_counter {F : Type} (P : Platform F) (w : System) (ops : List (AppendOp F))
    (hclosed : w.logger._fileHandle = none) (hopen : w.SD.openOk = true)
    (hc : w.logger._fileNameIterator < 65536)
    (hfit : ops.all (fitsValueChar P) = true) :
    (startLogging w).1 = boolOfInt EXIT_SUCCESS ∧
    (startLogging w).2.logger._fileNameIterator = w.logger._fileNameIterator ∧
    ∃ u, runAppends P (startLogging w).2 ops = some u ∧
      u.logger._fileNameIterator = w.logger._fileNameIterator ∧
      (endLogging u).1 = boolOfInt EXIT_SUCCESS ∧
      (endLogging u).2.logger._fileNameIterator
        = (if w.logger._fileNameIterator = 65535 then 0
            else w.logger._fileNameIterator + 1) ∧
      (endLogging u).2.logger._fileNameIterator ≠ w.logger._fileNameIterator ∧
      logFileName (endLogging u).2.logger ≠ logFileName w.logger := by
  have hs := startLogging_closed_ok w hclosed hopen
  obtain ⟨u, hu, bh, bi, bd⟩ := runAppends_logger P ops (startLogging w).2 hfit
  have bh := bh.trans (show (startLogging w).2.logger._fileHandle
    = some (logFileName w.logger) by rw [hs])
  have bi := bi.trans (show (startLogging w).2.logger._fileNameIterator
    = w.logger._fileNameIterator by rw [hs])
  have bd := bd.trans (show (startLogging w).2.logger._targetDirName
    = w.logger._targetDirName by rw [hs])
  have hend : endLogging u
      = (boolOfInt EXIT_SUCCESS,
          { u with
            logger := { u.logger with
              _fileHandle := none,
              _fileNameIterator := (w.logger._fileNameIterator + 1) % 65536 } }) := by
    unfold endLogging
    rw [bh, bi]
  have hval : (w.logger._fileNameIterator + 1) % 65536
      = (if w.logger._fileNameIterator = 65535 then 0 else w.logger._fileNameIterator + 1) := by
    split <;> omega
  have hne : (w.logger._fileNameIterator + 1) % 65536 ≠ w.logger._fileNameIterator := by
    omega
  refine ⟨by rw [hs], by rw [hs], u, hu, bi, by rw [hend], by rw [hend]; exact hval,
    by rw [hend]; exact hne, ?_⟩
  apply logFileName_ne
  · rw [hend]; exact bd
  · rw [hend]; exact hne

/-- C7, concrete run: counter 41, three appends, counter 42 afterwards. -/
theorem C7_file_counter_witness :
    (cardAtCounter 41).logger._fileHandle = none ∧
    (cardAtCounter 41).SD.openOk = true ∧
    [AppendOp.valueDec 1230 2, AppendOp.textC "x".toList, AppendOp.lineBreak].all
      (fitsValueChar samplePlatform) = true ∧
    ∃ u, runAppends samplePlatform (startLogging (cardAtCounter 41)).2
        [AppendOp.valueDec 1230 2, AppendOp.textC "x".toList, AppendOp.lineBreak] = some u ∧
      (endLogging u).2.logger._fileNameIterator = 42 :=
  have h := C7_file_counter samplePlatform (cardAtCounter 41)
    [AppendOp.valueDec 1230 2, AppendOp.textC "x".toList, AppendOp.lineBreak]
    (by decide) (by decide) (by decide) (by decide)
  ⟨by decide, by decide, by decide,
    h.2.2.elim (fun u hu => ⟨u, hu.1, hu.2.2.2.1⟩)⟩

/-- C7 as stated fails at the counter value 65535: after a successful
`startLogging` and `endLogging` the counter is 0, which is neither 65536 nor
greater than 65535. -/
theorem C7_counterexample :
    (startLogging (cardAtCounter 65535)).1 = boolOfInt EXIT_SUCCESS ∧
    (endLogging (startLogging (cardAtCounter 65535)).2).1 = boolOfInt EXIT_SUCCESS ∧
    (endLogging (startLogging (cardAtCounter 65535)).2).2.logger._fileNameIterator = 0 ∧
    ¬ (65535 < (endLogging (startLogging (cardAtCounter 65535)).2).2.logger._fileNameIterator) := by
  decide

/-- C8, the code at the failing input: with a directory `/SET9999` on the card,
`begin` formats the name `/SET10000`, which needs 10 bytes with its
terminator, one more than `_targetDirName` has; on an empty card the name
needs 9 bytes. -/
theorem C8_directory_name_overflows :
    (begin (cardWith [⟨"/SET9999".toList, true⟩]) 5).system.logger._targetDirName
      = "/SET10000".toList ∧
    (begin (cardWith [⟨"/SET9999".toList, true⟩]) 5).system.logger._targetDirName.length + 1
      = 10 ∧
    (begin (cardWith []) 5).system.logger._targetDirName.length + 1 = 9 := by
  decide

/-- C9: on an empty card that mounts, creates directories and opens files, with
a fresh logger set to Unix line ends that does not run into the endless loop
of the debug path, and on a platform where `dtostrf(v1, 6, 2)` gives `"  1.23"`
and `print(v2)` gives `"4.00"`: `begin` returns the success code and creates
`/SET0000`; `startLogging` opens the empty file `/SET0000/0000001.CSV`;
`addValue(v1, 2)` stays within its buffer and writes `dtostrf(v1, 4 + 2, 2)`;
after `addValue(v2)`, `addLineBreak` and `endLogging` the file holds exactly
`"  1.23, 4.00\n"` and is closed. -/
theorem C9_scenario {F : Type} (P : Platform F) (w : System) (pin : Nat) (v1 v2 : F)
    (hmount : w.SD.beginOk = true) (hroot : w.SD.rootOk = true)
    (hmkdir : w.SD.mkdirOk = true) (hopen : w.SD.openOk = true)
    (hempty : w.SD.root = [] ∧ w.SD.files = [])
    (hrun : w.logger._useSerialDebug = false ∨ w.SD.cardType ≠ CardType.CARD_NONE)
    (hfresh : w.logger._fileHandle = none ∧ w.logger._fileNameIterator = 1)
    (hunix : w.logger._isTargetWindows = false)
    (h1 : P.dtostrf v1 6 2 = "  1.23".toList) (h2 : P.printFloat v2 = "4.00".toList) :
    begin w pin = Outcome.ret (boolOfInt EXIT_SUCCESS) (begin w pin).system ∧
    (begin w pin).system.logger._targetDirName = "/SET0000".toList ∧
    (begin w pin).system.SD.root = [⟨"/SET0000".toList, true⟩] ∧
    (startLogging (begin w pin).system).2.logger._fileHandle
      = some "/SET0000/0000001.CSV".toList ∧
    (startLogging (begin w pin).system).2.SD.files
      = [("/SET0000/0000001.CSV".toList, [])] ∧
    (addValueDec P (startLogging (begin w pin).system).2 v1 2).map (fun r => r.2.SD.files)
      = some [("/SET0000/0000001.CSV".toList, P.dtostrf v1 (4 + 2) 2)] ∧
    (addValueDec P (startLogging (begin w pin).system).2 v1 2).map
        (fun r => (endLogging (addLineBreak (addValue P r.2 v2).2).2).2.SD.files)
      = some [("/SET0000/0000001.CSV".toList, "  1.23, 4.00\n".toList)] ∧
    (addValueDec P (startLogging (begin w pin).system).2 v1 2).map
        (fun r => (endLogging (addLineBreak (addValue P r.2 v2).2).2).2.logger._fileHandle)
      = some none := by
  obtain ⟨⟨dbg, win, ts, ms, dir, nl, it, fh⟩, ⟨bOk, rOk, mOk, oOk, tr, ct, root, files⟩,
    mil, lay⟩ := w
  simp only at hmount hroot hmkdir hopen hempty hrun hfresh hunix
  obtain ⟨hr, hf⟩ := hempty
  obtain ⟨hfh, hit⟩ := hfresh
  subst hmount hroot hmkdir hopen hr hf hfh hit hunix
  have e0 : fmtZeroPad 4 (toUInt16 0) = "0000".toList := by decide
  have e1 : fmtZeroPad 7 1 = "0000001".toList := by decide
  have hb : begin ⟨⟨dbg, false, ts, ms, dir, nl, 1, none⟩,
        ⟨true, true, true, true, tr, ct, [], []⟩, mil, lay⟩ pin
      = Outcome.ret false ⟨⟨dbg, false, ts, ms, "/SET0000".toList, nl, 1, none⟩,
        ⟨true, true, true, true, tr, ct, [⟨"/SET0000".toList, true⟩], []⟩, mil, lay⟩ := by
    rcases hrun with h | h
    · subst h
      simp [begin, _getTargetLoggingDirectoryNmbr, scanRoot, e0, SD_mkdir, SD_exists,
        boolOfInt, EXIT_SUCCESS]
    · simp [begin, _getTargetLoggingDirectoryNmbr, scanRoot, e0, SD_mkdir, SD_exists,
        boolOfInt, EXIT_SUCCESS, h]
  rw [hb]
  simp only [Outcome.system]
  have hs : startLogging ⟨⟨dbg, false, ts, ms, "/SET0000".toList, nl, 1, none⟩,
        ⟨true, true, true, true, tr, ct, [⟨"/SET0000".toList, true⟩], []⟩, mil, lay⟩
      = (false, ⟨⟨dbg, false, ts, if ts then mil else ms, "/SET0000".toList, true, 1,
          some "/SET0000/0000001.CSV".toList⟩,
        ⟨true, true, true, true, tr, ct, [⟨"/SET0000".toList, true⟩],
          [("/SET0000/0000001.CSV".toList, [])]⟩, mil, lay⟩) := by
    rw [startLogging_closed_ok _ rfl rfl]
    simp [logFileName, e1, SD_open, boolOfInt, EXIT_SUCCESS]
  rw [hs]
  have hlen : ¬ 20 ≤ (P.dtostrf v1 (4 + 2 % 256) (2 % 256)).length := by
    rw [show (4 + 2 % 256) = 6 from rfl, show 2 % 256 = 2 from rfl, h1]
    decide
  rw [addValueDec_open P _ _ rfl, if_neg hlen]
  simp [addValue, addLineBreak, endLogging, printText, printSeparator,
    File_print, h1, h2, boolOfInt, EXIT_SUCCESS]

/-- C9, concrete run with the sample platform and the values 1.230 and 4.000. -/
theorem C9_scenario_witness :
    samplePlatform.dtostrf 1230 6 2 = "  1.23".toList ∧
    samplePlatform.printFloat 4000 = "4.00".toList ∧
    (addValueDec samplePlatform (startLogging (begin (cardWith []) 5).system).2 1230 2).map
        (fun r => (endLogging (addLineBreak (addValue samplePlatform r.2 4000).2).2).2.SD.files)
      = some [("/SET0000/0000001.CSV".toList, "  1.23, 4.00\n".toList)] :=
  ⟨by decide, by decide,
    (C9_scenario samplePlatform (cardWith []) 5 1230 4000 rfl rfl rfl rfl ⟨rfl, rfl⟩
      (Or.inl rfl) ⟨rfl, rfl⟩ rfl (by decide) (by decide)).2.2.2.2.2.2.1⟩

/-- C10, the claim and where the code breaks it.  With a file open,
`addValue(float)` and the three `addText` overloads change nothing but the
content of the open file, so the new-line flag stays as it was, and
`addLineBreak` changes the logger only in that the flag becomes true.
`addValue(float, uint8_t)` changes the logger only in that the flag becomes
false as long as the text of `dtostrf` has fewer than 20 characters; with 20
or more characters it runs over `char valueChar[20]`, as it does at
`decimalPlaces_ = 16` and at `decimalPlaces_ = 100` for the value 1.000 on
the sample platform. -/
theorem C10_new_line_flag {F : Type} (P : Platform F) (w : System) (path : List Char)
    (hopen : w.logger._fileHandle = some path)
    (value_ : F) (decimalPlaces_ : Nat) (text_ : List Char) (buf_ : Nat → Char) (len_ : Nat) :
    OnlyFileChanged path w (addValue P w value_).2 ∧
    OnlyFileChanged path w (addTextC w text_).2 ∧
    OnlyFileChanged path w (addTextBuf w buf_ len_).2 ∧
    OnlyFileChanged path w (addTextS w text_).2 ∧
    (addValue P w value_).2.logger._isNewLine = w.logger._isNewLine ∧
    (addTextC w text_).2.logger._isNewLine = w.logger._isNewLine ∧
    (addTextBuf w buf_ len_).2.logger._isNewLine = w.logger._isNewLine ∧
    (addTextS w text_).2.logger._isNewLine = w.logger._isNewLine ∧
    (addLineBreak w).2.logger = { w.logger with _isNewLine := true } ∧
    (addValueDec P w value_ decimalPlaces_).map (fun r => r.2.logger)
      = (if 20 ≤ (P.dtostrf value_ (4 + decimalPlaces_ % 256) (decimalPlaces_ % 256)).length
          then none else some { w.logger with _isNewLine := false }) ∧
    addValueDec samplePlatform (startLogging readyCard).2 1000 16 = none ∧
    addValueDec samplePlatform (startLogging readyCard).2 1000 100 = none := by
  have hV : OnlyFileChanged path w (addValue P w value_).2 := by
    simp only [addValue, hopen]
    exact separator_then_text_frame w path _ hopen
  have hC : OnlyFileChanged path w (addTextC w text_).2 := by
    simp only [addTextC, hopen]
    exact separator_then_text_frame w path _ hopen
  have hB : OnlyFileChanged path w (addTextBuf w buf_ len_).2 := by
    simp only [addTextBuf, hopen]
    have h1 := printSeparator_frame w path hopen
    exact h1.trans (printChars_frame buf_ path _ 0 _ (by rw [h1.logger]; exact hopen))
  have hS : OnlyFileChanged path w (addTextS w text_).2 := by
    simp only [addTextS, hopen]
    exact separator_then_text_frame w path _ hopen
  refine ⟨hV, hC, hB, hS, by rw [hV.logger], by rw [hC.logger], by rw [hB.logger],
    by rw [hS.logger], ?_, ?_, by decide, by decide⟩
  · simp only [addLineBreak, hopen]
    cases hwin : w.logger._isTargetWindows
    · simp only [Bool.false_eq_true, if_false]
      rw [(printText_frame w path _ hopen).logger]
      simp [hopen, hwin]
    · simp only [if_true]
      have h1 := printText_frame w path "\r".toList hopen
      have h2 := printText_frame (printText w "\r".toList) path "\n".toList
        (by rw [h1.logger]; exact hopen)
      rw [(h1.trans h2).logger]
      simp [hopen, hwin]
  · rw [addValueDec_open P w path hopen]
    split <;> rfl

/-- C10, concrete run on a logger that has just started logging: `addText`
leaves the flag, `addValue(1.500, 2)` fits its buffer and clears the flag. -/
theorem C10_new_line_flag_witness :
    (startLogging readyCard).2.logger._fileHandle = some "/SET0000/0000001.CSV".toList ∧
    (addTextC (startLogging readyCard).2 "x".toList).2.logger._isNewLine
      = (startLogging readyCard).2.logger._isNewLine ∧
    (addValueDec samplePlatform (startLogging readyCard).2 1500 2).map (fun r => r.2.logger)
      = some { (startLogging readyCard).2.logger with _isNewLine := false } :=
  have h := C10_new_line_flag samplePlatform (startLogging readyCard).2
    "/SET0000/0000001.CSV".toList (by decide) 1500 2 "x".toList (fun _ => 'x') 1
  ⟨by decide, h.2.2.2.2.2.1, by decide⟩

end CSVFileLogger
